import Mathlib

/-!
Verification development for the zero-sugar JavaScript desugaring
transformer.  The Rust source is shallowly embedded: AST node shapes
follow the oxc AST as used by the transformer (source spans, arena
boxes and TypeScript-only annotation fields are dropped, since no pass
reads them), number literals are modelled as natural numbers (every
literal the passes construct is a small non-negative integer such as a
case index or an action code), and the interior-mutability handle on
the mapper state is modelled by threading the state explicitly, as the
design notes of the specification themselves suggest for languages
without interior mutability.
-/

namespace ZeroSugar

/-- Binary operators used by the lowering passes: strict equality and
less-or-equal, mirroring BinaryOperator::StrictEquality and
BinaryOperator::LessEqualThan. -/
inductive BinOp where
  | strictEq
  | lessEqThan
  deriving DecidableEq, Repr

/-- Expressions, mirroring the oxc Expression shapes the passes build
and inspect.  Assignment targets that are plain identifier references
are folded into assignName (the builder create_assignment_expression
is only ever called with an identifier-reference target); assignment
to a member target mirrors create_assignment_expression_member. -/
inductive Expr where
  | ident (name : String)
  | num (value : Nat)
  | str (value : String)
  | boolLit (value : Bool)
  | binop (op : BinOp) (lhs rhs : Expr)
  | assignName (target : String) (rhs : Expr)
  | assignMemberStatic (obj : Expr) (prop : String) (rhs : Expr)
  | assignMemberComputed (obj : Expr) (key : Expr) (rhs : Expr)
  | member (obj : Expr) (prop : String)
  | memberComputed (obj : Expr) (key : Expr)
  | call (callee : Expr) (args : List Expr)
  | array (elems : List Expr)

/-- Property keys of object binding patterns: PropertyKey::Identifier
or PropertyKey::Expression (private identifiers cannot occur in a
binding position and the source panics on them). -/
inductive PropKey where
  | keyIdent (name : String)
  | keyExpr (e : Expr)

/-- Binding patterns, mirroring BindingPatternKind.  An object pattern
property carries its key, value pattern and computed flag (the
shorthand flag is destructured but never read by the pass).  Rest
elements carry their argument pattern. -/
inductive Pat where
  | ident (name : String)
  | obj (props : List (PropKey × Pat × Bool)) (rest : Option Pat)
  | arr (elems : List (Option Pat)) (rest : Option Pat)
  | assignPat (left : Pat) (right : Expr)

/-- Variable declaration kinds. -/
inductive DeclKind where
  | kVar
  | kLet
  | kConst
  deriving DecidableEq, Repr

/-- A variable declarator: its own kind field (oxc declarators carry a
copy of the declaration kind; the builders always set it to Let),
binding pattern, and optional initializer (the definite field is never
read). -/
abbrev Declr := DeclKind × Pat × Option Expr

/-- The init of a C-style for statement.  The using variant keeps no
payload: both lib.rs and the mapper reject it before reading it. -/
inductive ForInit where
  | initExpr (e : Expr)
  | initDecl (kind : DeclKind) (decls : List Declr)
  | initUsing

/-- Simple or pattern assignment targets of a for-in / for-of header,
mirroring ForStatementLeft::AssignmentTarget.  The pattern variant
records the original destructuring pattern so the embedding can show
what the pass does with it. -/
inductive AssignTarget where
  | targetIdent (name : String)
  | targetMemberStatic (obj : Expr) (prop : String)
  | targetMemberComputed (obj : Expr) (key : Expr)
  | targetPattern (pat : Pat)

/-- The left-hand side of a for-in / for-of header, mirroring
ForStatementLeft. -/
inductive ForLeft where
  | leftDecl (kind : DeclKind) (decls : List Declr)
  | leftTarget (target : AssignTarget)
  | leftUsing

/-- Statements, mirroring the oxc Statement shapes the mapper walks
and the passes build.  A try statement carries its block body, an
optional catch clause (parameter pattern plus handler body) and an
optional finalizer body; a switch case is a pair of optional test and
consequent list. -/
inductive Stmt where
  | block (body : List Stmt)
  | empty
  | debugger
  | exprStmt (e : Expr)
  | varDecl (kind : DeclKind) (decls : List Declr)
  | ifStmt (test : Expr) (consequent : Stmt) (alternate : Option Stmt)
  | labeled (label : String) (body : Stmt)
  | breakStmt (label : Option String)
  | continueStmt (label : Option String)
  | returnStmt (argument : Option Expr)
  | throwStmt (argument : Expr)
  | whileStmt (test : Expr) (body : Stmt)
  | doWhileStmt (body : Stmt) (test : Expr)
  | forStmt (init : Option ForInit) (test : Option Expr) (update : Option Expr) (body : Stmt)
  | tryStmt (body : List Stmt) (handler : Option (Option Pat × List Stmt))
      (finalizer : Option (List Stmt))
  | switchStmt (discriminant : Expr) (cases : List (Option Expr × List Stmt))

/-- Mapper state, mirroring MapperState in mapper_state.rs.  The field
alloc_log is a ghost observation recording the numeric id handed out
by each next_ident_name call, so that allocation-order properties can
be stated; it influences nothing. -/
structure MapperState where
  id_counter : Nat
  continue_targets : List (String × Option String)
  alloc_log : List Nat
  deriving DecidableEq, Repr

/-- next_ident_name from mapper_state.rs: returns the fresh name
formed from the fixed prefix and the current counter, then increments
the counter (and records the id in the ghost log). -/
def next_ident_name (s : MapperState) : String × MapperState :=
  let id := s.id_counter
  ("$zeroSugar" ++ toString id,
    { s with id_counter := s.id_counter + 1, alloc_log := s.alloc_log ++ [id] })

/-- Mapper visitor actions, mirroring MapperAction in mapper.rs. -/
inductive MapperAction where
  | normal
  | revisit
  | skip
  deriving DecidableEq, Repr



/-- Threads a state through a list, applying the step to each element
in order (the shape of the for-loops the mapper runs over child
lists). -/
def statefulMap {α β σ : Type} (g : α → σ → β × σ) : List α → σ → List β × σ
  | [], st => ([], st)
  | x :: xs, st =>
    let (y, st) := g x st
    let (ys, st) := statefulMap g xs st
    (y :: ys, st)

/-- Threads a state through an optional value. -/
def statefulMapOpt {α β σ : Type} (g : α → σ → β × σ) : Option α → σ → Option β × σ
  | none, st => (none, st)
  | some x, st =>
    let (y, st) := g x st
    (some y, st)

/-- A statement visitor: node, phase flag (true = Before) and the
shared mutable state.  The Rust visitors reach the state through an
interior-mutability handle; here it is threaded explicitly. -/
abbrev StmtVisitor (σ : Type) := Stmt → Bool → σ → MapperAction × Stmt × σ

/-- An expression visitor. -/
abbrev ExprVisitor (σ : Type) := Expr → Bool → σ → MapperAction × Expr × σ

/-- The before-phase visitor loop of map_statement / map_expression
(mapper.rs lines 90-102 and 366-378): runs the visitors in order on
the node, breaking with visit_again = true on Revisit; the enter_node
flag is initialized to true and only ever OR-ed with the result of
comparing the action against Normal, exactly as in the source.
Returns (visit_again, enter_node, node, state). -/
def run_before_visitors {α σ : Type} :
    List (α → Bool → σ → MapperAction × α × σ) → Bool → α → σ → Bool × Bool × α × σ
  | [], enter_node, node, st => (false, enter_node, node, st)
  | v :: rest, enter_node, node, st =>
    match v node true st with
    | (MapperAction.revisit, node, st) => (true, enter_node, node, st)
    | (action, node, st) =>
      run_before_visitors rest (enter_node || (action == MapperAction.normal)) node st

/-- The after-phase visitor loop (mapper.rs lines 315-323): runs the
visitors in order, breaking with visit_again = true on Revisit.
Returns (visit_again, node, state). -/
def run_after_visitors {α σ : Type} :
    List (α → Bool → σ → MapperAction × α × σ) → α → σ → Bool × α × σ
  | [], node, st => (false, node, st)
  | v :: rest, node, st =>
    match v node false st with
    | (MapperAction.revisit, node, st) => (true, node, st)
    | (_, node, st) => run_after_visitors rest node st

/-- map_expression from mapper.rs: the enter-loop runs before
visitors, descends into children when enter_node holds, runs after
visitors and repeats while a Revisit was requested.  Member property
names that are non-computed identifiers are not walked.  The unbounded
while-loop of the source is given a fuel bound; at fuel zero the node
is returned unchanged. -/
def map_expression {σ : Type} : Nat → List (ExprVisitor σ) → Expr → σ → Expr × σ
  | 0, _, e, st => (e, st)
  | fuel + 1, ve, e, st =>
    let (va1, enter_node, e, st) := run_before_visitors ve true e st
    let (e, st) :=
      if enter_node then
        match e, st with
        | Expr.ident name, st => (Expr.ident name, st)
        | Expr.num v, st => (Expr.num v, st)
        | Expr.str v, st => (Expr.str v, st)
        | Expr.boolLit v, st => (Expr.boolLit v, st)
        | Expr.binop op l r, st =>
          let (l, st) := map_expression fuel ve l st
          let (r, st) := map_expression fuel ve r st
          (Expr.binop op l r, st)
        | Expr.assignName t r, st =>
          let (r, st) := map_expression fuel ve r st
          (Expr.assignName t r, st)
        | Expr.assignMemberStatic o p r, st =>
          let (o, st) := map_expression fuel ve o st
          let (r, st) := map_expression fuel ve r st
          (Expr.assignMemberStatic o p r, st)
        | Expr.assignMemberComputed o k r, st =>
          let (o, st) := map_expression fuel ve o st
          let (k, st) := map_expression fuel ve k st
          let (r, st) := map_expression fuel ve r st
          (Expr.assignMemberComputed o k r, st)
        | Expr.member o p, st =>
          let (o, st) := map_expression fuel ve o st
          (Expr.member o p, st)
        | Expr.memberComputed o k, st =>
          let (o, st) := map_expression fuel ve o st
          let (k, st) := map_expression fuel ve k st
          (Expr.memberComputed o k, st)
        | Expr.call callee args, st =>
          let (callee, st) := map_expression fuel ve callee st
          let (args, st) := statefulMap (map_expression fuel ve) args st
          (Expr.call callee args, st)
        | Expr.array elems, st =>
          let (elems, st) := statefulMap (map_expression fuel ve) elems st
          (Expr.array elems, st)
      else (e, st)
    let (va2, e, st) := run_after_visitors ve e st
    if va1 || va2 then map_expression fuel ve e st else (e, st)

/-- map_binding_pattern from mapper.rs: walks the default expressions
and computed keys inside a binding pattern. -/
def map_binding_pattern {σ : Type} : Nat → List (ExprVisitor σ) → Pat → σ → Pat × σ
  | 0, _, p, st => (p, st)
  | fuel + 1, ve, p, st =>
    match p, st with
    | Pat.ident name, st => (Pat.ident name, st)
    | Pat.obj props rest, st =>
      let (props, st) := statefulMap (fun (kvc : PropKey × Pat × Bool) st =>
        let (k, v, c) := kvc
        let (k, st) :=
          match k, st with
          | PropKey.keyIdent n, st => (PropKey.keyIdent n, st)
          | PropKey.keyExpr e, st =>
            let (e, st) := map_expression fuel ve e st
            (PropKey.keyExpr e, st)
        let (v, st) := map_binding_pattern fuel ve v st
        ((k, v, c), st)) props st
      let (rest, st) := statefulMapOpt (map_binding_pattern fuel ve) rest st
      (Pat.obj props rest, st)
    | Pat.arr elems rest, st =>
      let (elems, st) := statefulMap (fun (e : Option Pat) st =>
        statefulMapOpt (map_binding_pattern fuel ve) e st) elems st
      let (rest, st) := statefulMapOpt (map_binding_pattern fuel ve) rest st
      (Pat.arr elems rest, st)
    | Pat.assignPat l r, st =>
      let (l, st) := map_binding_pattern fuel ve l st
      let (r, st) := map_expression fuel ve r st
      (Pat.assignPat l r, st)

/-- map_variable_declaration from mapper.rs: maps each declarator
pattern and initializer. -/
def map_variable_declaration {σ : Type} (fuel : Nat) (ve : List (ExprVisitor σ))
    (kind : DeclKind) (decls : List Declr) (st : σ) : (DeclKind × List Declr) × σ :=
  let (decls, st) := statefulMap (fun (d : Declr) st =>
    let (dk, p, init) := d
    let (p, st) := map_binding_pattern fuel ve p st
    let (init, st) := statefulMapOpt (map_expression fuel ve) init st
    ((dk, p, init), st)) decls st
  ((kind, decls), st)

/-- map_statement from mapper.rs: the enter-loop runs before visitors,
descends into children when enter_node holds, runs after visitors and
repeats while a Revisit was requested.  The descend arm for a switch
statement performs the traversal of map_switch_statement inline
(discriminant, then each case test and consequent in source order).
The unbounded while-loop of the source is fuel-bounded. -/
def map_statement {σ : Type} : Nat → List (StmtVisitor σ) → List (ExprVisitor σ) → Stmt → σ → Stmt × σ
  | 0, _, _, stmt, st => (stmt, st)
  | fuel + 1, vs, ve, stmt, st =>
    let (va1, enter_node, stmt, st) := run_before_visitors vs true stmt st
    let (stmt, st) :=
      if enter_node then
        match stmt, st with
        | Stmt.block body, st =>
          let (body, st) := statefulMap (map_statement fuel vs ve) body st
          (Stmt.block body, st)
        | Stmt.empty, st => (Stmt.empty, st)
        | Stmt.debugger, st => (Stmt.debugger, st)
        | Stmt.breakStmt l, st => (Stmt.breakStmt l, st)
        | Stmt.continueStmt l, st => (Stmt.continueStmt l, st)
        | Stmt.exprStmt e, st =>
          let (e, st) := map_expression fuel ve e st
          (Stmt.exprStmt e, st)
        | Stmt.varDecl kind decls, st =>
          let ((kind, decls), st) := map_variable_declaration fuel ve kind decls st
          (Stmt.varDecl kind decls, st)
        | Stmt.ifStmt test consequent alternate, st =>
          let (test, st) := map_expression fuel ve test st
          let (consequent, st) := map_statement fuel vs ve consequent st
          let (alternate, st) := statefulMapOpt (map_statement fuel vs ve) alternate st
          (Stmt.ifStmt test consequent alternate, st)
        | Stmt.labeled label body, st =>
          let (body, st) := map_statement fuel vs ve body st
          (Stmt.labeled label body, st)
        | Stmt.returnStmt argument, st =>
          let (argument, st) := statefulMapOpt (map_expression fuel ve) argument st
          (Stmt.returnStmt argument, st)
        | Stmt.throwStmt argument, st =>
          let (argument, st) := map_expression fuel ve argument st
          (Stmt.throwStmt argument, st)
        | Stmt.whileStmt test body, st =>
          let (test, st) := map_expression fuel ve test st
          let (body, st) := map_statement fuel vs ve body st
          (Stmt.whileStmt test body, st)
        | Stmt.doWhileStmt body test, st =>
          let (body, st) := map_statement fuel vs ve body st
          let (test, st) := map_expression fuel ve test st
          (Stmt.doWhileStmt body test, st)
        | Stmt.forStmt init test update body, st =>
          let (init, st) :=
            match init, st with
            | some (ForInit.initExpr e), st =>
              let (e, st) := map_expression fuel ve e st
              (some (ForInit.initExpr e), st)
            | some (ForInit.initDecl kind decls), st =>
              let ((kind, decls), st) := map_variable_declaration fuel ve kind decls st
              (some (ForInit.initDecl kind decls), st)
            | some ForInit.initUsing, st => (some ForInit.initUsing, st)
            | none, st => (none, st)
          let (test, st) := statefulMapOpt (map_expression fuel ve) test st
          let (update, st) := statefulMapOpt (map_expression fuel ve) update st
          let (body, st) := map_statement fuel vs ve body st
          (Stmt.forStmt init test update body, st)
        | Stmt.tryStmt body handler finalizer, st =>
          let (body, st) := statefulMap (map_statement fuel vs ve) body st
          let (handler, st) := statefulMapOpt (fun (h : Option Pat × List Stmt) st =>
            let (param, hbody) := h
            let (hbody, st) := statefulMap (map_statement fuel vs ve) hbody st
            let (param, st) := statefulMapOpt (map_binding_pattern fuel ve) param st
            ((param, hbody), st)) handler st
          let (finalizer, st) := statefulMapOpt (fun (f : List Stmt) st =>
            statefulMap (map_statement fuel vs ve) f st) finalizer st
          (Stmt.tryStmt body handler finalizer, st)
        | Stmt.switchStmt discriminant cases, st =>
          let (discriminant, st) := map_expression fuel ve discriminant st
          let (cases, st) := statefulMap (fun (c : Option Expr × List Stmt) st =>
            let (test, consequent) := c
            let (test, st) := statefulMapOpt (map_expression fuel ve) test st
            let (consequent, st) := statefulMap (map_statement fuel vs ve) consequent st
            ((test, consequent), st)) cases st
          (Stmt.switchStmt discriminant cases, st)
      else (stmt, st)
    let (va2, stmt, st) := run_after_visitors vs stmt st
    if va1 || va2 then map_statement fuel vs ve stmt st else (stmt, st)

/-- map_switch_statement from mapper.rs: maps the discriminant, then
each case test and consequent, without running visitors on the switch
node itself.  This is the entry point the switch pass uses for its
break-rewriting sub-walk. -/
def map_switch_statement {σ : Type} (fuel : Nat) (vs : List (StmtVisitor σ))
    (ve : List (ExprVisitor σ)) (discriminant : Expr)
    (cases : List (Option Expr × List Stmt)) (st : σ) :
    (Expr × List (Option Expr × List Stmt)) × σ :=
  let (discriminant, st) := map_expression fuel ve discriminant st
  let (cases, st) := statefulMap (fun (c : Option Expr × List Stmt) st =>
    let (test, consequent) := c
    let (test, st) := statefulMapOpt (map_expression fuel ve) test st
    let (consequent, st) := statefulMap (map_statement fuel vs ve) consequent st
    ((test, consequent), st)) cases st
  ((discriminant, cases), st)

/-!
Builder library (transforms/builder.rs): thin constructors over the
AST.  Allocator and span arguments are dropped; the assignment builder
create_assignment_expression is only ever called with the Assign
operator and an identifier-reference target, so the operator argument
is dropped and the target is the referenced name.
-/

def create_expression_statement (e : Expr) : Stmt := Stmt.exprStmt e

def create_identifier_expression (name : String) : Expr := Expr.ident name

def create_identifier_reference (name : String) : String := name

def create_assignment_expression_name (name : String) (rhs : Expr) : Expr :=
  Expr.assignName name rhs

def create_assignment_expression (target : String) (rhs : Expr) : Expr :=
  Expr.assignName target rhs

def create_number_literal (value : Nat) : Expr := Expr.num value

def create_number_literal_str (value : Nat) : Expr := Expr.num value

def create_string_literal (value : String) : Expr := Expr.str value

def create_bool (value : Bool) : Expr := Expr.boolLit value

def create_binary_expression (op : BinOp) (lhs rhs : Expr) : Expr := Expr.binop op lhs rhs

def create_if_statement (test : Expr) (consequent : Stmt) (alternate : Option Stmt) : Stmt :=
  Stmt.ifStmt test consequent alternate

def create_block_statement (body : List Stmt) : Stmt := Stmt.block body

def create_labeled_statement (label : String) (body : Stmt) : Stmt := Stmt.labeled label body

def create_labeled_stmt (label : String) (body : Stmt) : Stmt := Stmt.labeled label body

def create_break_statement (label : Option String) : Stmt := Stmt.breakStmt label

def create_throw_statement (argument : Expr) : Stmt := Stmt.throwStmt argument

def create_return_statement (argument : Option Expr) : Stmt := Stmt.returnStmt argument

def create_while_statement (test : Expr) (body : Stmt) : Stmt := Stmt.whileStmt test body

def create_member_expression (obj : Expr) (prop : String) : Expr := Expr.member obj prop

def create_member_expression_computed (obj : Expr) (key : Expr) : Expr :=
  Expr.memberComputed obj key

def create_member_expression_computed_ident (obj : Expr) (propIdentName : String) : Expr :=
  create_member_expression_computed obj (create_identifier_expression propIdentName)

def create_call_expression (callee : Expr) (args : List Expr) : Expr := Expr.call callee args

def create_array_expression (elems : List Expr) : Expr := Expr.array elems

def create_catch_clause (param : Option Pat) (body : List Stmt) : Option Pat × List Stmt :=
  (param, body)

def create_try_statement (body : List Stmt) (handler : Option (Option Pat × List Stmt))
    (finalizer : Option (List Stmt)) : Stmt :=
  Stmt.tryStmt body handler finalizer

def create_binding_pattern (name : String) : Pat := Pat.ident name

def create_variable_declarator (name : String) (init : Option Expr) : Declr :=
  (DeclKind.kLet, Pat.ident name, init)

def create_variable_declarator_pattern (pat : Pat) (init : Option Expr) : Declr :=
  (DeclKind.kLet, pat, init)

def create_variable_declaration_kind (kind : DeclKind) (name : String) (init : Option Expr) : Stmt :=
  Stmt.varDecl kind [create_variable_declarator name init]

def create_variable_declaration_var (name : String) (init : Option Expr) : Stmt :=
  create_variable_declaration_kind DeclKind.kVar name init

def create_variable_declaration_let (name : String) (init : Option Expr) : Stmt :=
  create_variable_declaration_kind DeclKind.kLet name init

def create_variable_declaration_const (name : String) (init : Option Expr) : Stmt :=
  create_variable_declaration_kind DeclKind.kConst name init

def create_variable_declaration_kind_declr (kind : DeclKind) (declr : Declr) : Stmt :=
  Stmt.varDecl kind [declr]

/-!
Probe visitors for the mapper control flow.  The Rust visitors are
closures over an interior-mutability handle; these probes need no
state, so the state type is Unit.
-/

/-- A Before-phase probe for the Skip action: it answers Skip on every
block statement, rewrites an empty statement to a debugger statement,
and passes everything else through with Normal.  If Skip prevented
descent, a block answered with Skip would keep its children
untouched. -/
def skip_probe_visitor : StmtVisitor Unit := fun stmt before st =>
  if before then
    match stmt with
    | Stmt.block body => (MapperAction.skip, Stmt.block body, st)
    | Stmt.empty => (MapperAction.normal, Stmt.debugger, st)
    | s => (MapperAction.normal, s, st)
  else (MapperAction.normal, stmt, st)

/-- A Before-phase probe for the Revisit action: the marker statement
a is answered with Revisit and replaced by a block holding marker b;
marker b rewrites to c and marker c rewrites to d with Normal.  If
Revisit restarted the cycle without descending, the children of the
returned block would be mapped exactly once (b becomes c); a descent
in the same iteration maps them a second time on the restart (c
becomes d). -/
def revisit_probe_visitor : StmtVisitor Unit := fun stmt before st =>
  if before then
    match stmt with
    | Stmt.exprStmt (Expr.ident "a") =>
      (MapperAction.revisit, Stmt.block [Stmt.exprStmt (Expr.ident "b")], st)
    | Stmt.exprStmt (Expr.ident "b") => (MapperAction.normal, Stmt.exprStmt (Expr.ident "c"), st)
    | Stmt.exprStmt (Expr.ident "c") => (MapperAction.normal, Stmt.exprStmt (Expr.ident "d"), st)
    | s => (MapperAction.normal, s, st)
  else (MapperAction.normal, stmt, st)

/-- C5.  The claim states that a Before-phase Skip makes the mapper
run the remaining visitors but not descend into the children of the node.
In map_statement the enter_node flag is initialized to true and only
ever OR-ed with the per-visitor result, so it can never become false:
a block answered with Skip is still entered, and its empty child is
still visited and rewritten to a debugger statement. -/
theorem c5_skip_does_not_prevent_descent :
    map_statement 9 [skip_probe_visitor] [] (Stmt.block [Stmt.empty]) () =
      (Stmt.block [Stmt.debugger], ()) := rfl

/-- C6.  The claim states that a visitor returning Revisit makes the
mapper stop the phase, not descend, and restart the cycle on the
returned node.  In map_statement the remaining visitors are indeed
skipped and the cycle restarts, but because enter_node stays true the
mapper also descends (and runs the After phase) before restarting:
starting from marker a, the child of the returned block is mapped both
in the Revisit iteration (b to c) and in the restarted cycle (c to d),
ending at d where a restart without descent would end at c. -/
theorem c6_revisit_descends_before_restart :
    map_statement 9 [revisit_probe_visitor] [] (Stmt.exprStmt (Expr.ident "a")) () =
      (Stmt.block [Stmt.exprStmt (Expr.ident "d")], ()) := rfl

/-!
Continue pass (transforms/stmt_continue.rs).
-/

/-- Writes the generated label into the second component of the
continue_targets entry at index i, mirroring the assignments
continue_targets[i].1 = Some(generated).  An out-of-range index leaves
the list unchanged; in the source that would be an index panic, which
is unreachable for syntactically valid programs because a label entry
directly wrapping a loop always has that loop entry above it. -/
def set_generated (l : List (String × Option String)) (i : Nat) (g : String) :
    List (String × Option String) :=
  match l.get? i with
  | some (name, _) => l.set i (name, some g)
  | none => l

/-- transform_continue_statement from stmt_continue.rs: resolves the
continue target on the continue_targets stack (searching from the top;
an unlabeled continue targets the sentinel name), reuses the stored
generated label if present and otherwise allocates a fresh one,
storing it on the entry itself for the sentinel case and on the entry
above for a label case, and answers Revisit with a labeled break.  The
unreachable-target arm, a panic in the source, returns the statement
unchanged. -/
def transform_continue_statement (label : Option String) (state : MapperState) :
    MapperAction × Stmt × MapperState :=
  let target_label :=
    match label with
    | some name => name
    | none => "#loop"
  match (state.continue_targets.enum.reverse).find? (fun p => p.2.1 == target_label) with
  | none => (MapperAction.normal, Stmt.continueStmt label, state)
  | some (i, _, generatedOpt) =>
    match generatedOpt with
    | some generated => (MapperAction.revisit, Stmt.breakStmt (some generated), state)
    | none =>
      let (generated, state) := next_ident_name state
      let state :=
        if target_label == "#loop" then
          { state with continue_targets := set_generated state.continue_targets i generated }
        else
          { state with continue_targets := set_generated state.continue_targets (i + 1) generated }
      (MapperAction.revisit, Stmt.breakStmt (some generated), state)

/-- apply_continue_transform_updates from stmt_continue.rs: pushes a
sentinel entry on entering a loop and pops it on exit, wrapping the
loop body in a labeled statement when the popped entry carries a
generated label; pushes a named entry on entering a labeled statement
and pops it untouched on exit.  Popping an empty stack, an unwrap
panic in the source, leaves the statement and state unchanged. -/
def apply_continue_transform_updates (stmt : Stmt) (before : Bool) (state : MapperState) :
    Stmt × MapperState :=
  match stmt with
  | Stmt.doWhileStmt _ _ | Stmt.forStmt _ _ _ _ | Stmt.whileStmt _ _ =>
    if before then
      (stmt, { state with continue_targets := state.continue_targets ++ [("#loop", none)] })
    else
      match state.continue_targets.getLast? with
      | none => (stmt, state)
      | some (_, used) =>
        let state := { state with continue_targets := state.continue_targets.dropLast }
        match used with
        | none => (stmt, state)
        | some used =>
          match stmt with
          | Stmt.doWhileStmt body test =>
            (Stmt.doWhileStmt (create_labeled_stmt used body) test, state)
          | Stmt.forStmt init test update body =>
            (Stmt.forStmt init test update (create_labeled_stmt used body), state)
          | Stmt.whileStmt test body =>
            (Stmt.whileStmt test (create_labeled_stmt used body), state)
          | other => (other, state)
  | Stmt.labeled label body =>
    if before then
      (Stmt.labeled label body,
        { state with continue_targets := state.continue_targets ++ [(label, none)] })
    else
      (Stmt.labeled label body,
        { state with continue_targets := state.continue_targets.dropLast })
  | other => (other, state)

/-- Modelled from the spec: the registration that wires the continue
pass into the mapper lives in the crate root, which is not among the
sources provided (only stmt_continue.rs and the mapper are).  Section
4.3 of the specification describes the wiring: for every loop and
labeled statement an entry is pushed on enter and popped on exit, and
each continue is replaced via the transform, requesting Revisit.  This
visitor applies transform_continue_statement to continue statements in
the Before phase and apply_continue_transform_updates to every other
statement in both phases. -/
def continue_pass_visitor : StmtVisitor MapperState := fun stmt before st =>
  match stmt with
  | Stmt.continueStmt label =>
    if before then transform_continue_statement label st
    else (MapperAction.normal, stmt, st)
  | _ =>
    let (stmt, st) := apply_continue_transform_updates stmt before st
    (MapperAction.normal, stmt, st)

/-- The initial mapper state: counter zero, empty stacks. -/
def initial_state : MapperState := { id_counter := 0, continue_targets := [], alloc_log := [] }

/-- C7.  The claim states that the generated label of a target entry
is created by the first continue targeting it and reused by every
subsequent continue targeting the same entry.  For a labeled continue
the pass stores the generated label on the loop entry above the label
entry, but looks it up on the label entry itself, which stays empty:
running the pass on outer: while (x) with two continue outer in the
body, the first continue becomes break to the first fresh label and
the second continue allocates a second fresh label instead of reusing
the first; only the second label wraps the loop body, so the first
break targets a label that no longer exists anywhere in the output. -/
theorem c7_second_labeled_continue_gets_new_label :
    map_statement 12 [continue_pass_visitor] []
      (Stmt.labeled "outer" (Stmt.whileStmt (Expr.ident "x")
        (Stmt.block [Stmt.continueStmt (some "outer"), Stmt.continueStmt (some "outer")])))
      initial_state =
    (Stmt.labeled "outer" (Stmt.whileStmt (Expr.ident "x")
        (Stmt.labeled "$zeroSugar1"
          (Stmt.block [Stmt.breakStmt (some "$zeroSugar0"), Stmt.breakStmt (some "$zeroSugar1")]))),
      { id_counter := 2, continue_targets := [], alloc_log := [0, 1] }) := rfl

/-!
For-header normalization (transforms/for_header.rs).
-/

/-- transform_for_header from for_header.rs: normalizes the left-hand
side of a for-in / for-of header.  A declaration binding a
destructuring pattern gets a fresh temporary in the header; the
prepended statement is built by create_variable_declaration_kind with
the temporary as both the declared name and the initializer.  A
pattern assignment target likewise gets a fresh temporary and a
prepended assignment of the temporary to itself; a member assignment
target gets a prepended assignment of the temporary into the member.
The empty-declarations unwrap and the using arm are panics in the
source; they return the input unchanged here and are unreachable for
parsed programs. -/
def transform_for_header (left : ForLeft) (state : MapperState) :
    (ForLeft × Option Stmt) × MapperState :=
  match left with
  | ForLeft.leftDecl kind decls =>
    match decls.head? with
    | none => ((ForLeft.leftDecl kind decls, none), state)
    | some (_dk, id, init) =>
      match id with
      | Pat.arr _elems _rest =>
        let (tmp_name, state) := next_ident_name state
        let new_left := ForLeft.leftDecl kind [create_variable_declarator tmp_name init]
        let pattern_stmt := create_variable_declaration_kind kind tmp_name
          (some (create_identifier_expression tmp_name))
        ((new_left, some pattern_stmt), state)
      | Pat.obj _props _rest =>
        let (tmp_name, state) := next_ident_name state
        let new_left := ForLeft.leftDecl kind [create_variable_declarator tmp_name init]
        let pattern_stmt := create_variable_declaration_kind kind tmp_name
          (some (create_identifier_expression tmp_name))
        ((new_left, some pattern_stmt), state)
      | Pat.assignPat _l _r =>
        let (tmp_name, state) := next_ident_name state
        let new_left := ForLeft.leftDecl kind [create_variable_declarator tmp_name init]
        let pattern_stmt := create_variable_declaration_kind kind tmp_name
          (some (create_identifier_expression tmp_name))
        ((new_left, some pattern_stmt), state)
      | Pat.ident name =>
        ((ForLeft.leftDecl kind [(kind, Pat.ident name, init)], none), state)
  | ForLeft.leftTarget target =>
    match target with
    | AssignTarget.targetPattern _p =>
      let (tmp_name, state) := next_ident_name state
      let new_left := ForLeft.leftTarget (AssignTarget.targetIdent (create_identifier_reference tmp_name))
      let pattern_stmt := create_expression_statement
        (create_assignment_expression_name tmp_name (create_identifier_expression tmp_name))
      ((new_left, some pattern_stmt), state)
    | AssignTarget.targetMemberStatic obj prop =>
      let (tmp_name, state) := next_ident_name state
      let new_left := ForLeft.leftTarget (AssignTarget.targetIdent (create_identifier_reference tmp_name))
      let pattern_stmt := create_expression_statement
        (Expr.assignMemberStatic obj prop (create_identifier_expression tmp_name))
      ((new_left, some pattern_stmt), state)
    | AssignTarget.targetMemberComputed obj key =>
      let (tmp_name, state) := next_ident_name state
      let new_left := ForLeft.leftTarget (AssignTarget.targetIdent (create_identifier_reference tmp_name))
      let pattern_stmt := create_expression_statement
        (Expr.assignMemberComputed obj key (create_identifier_expression tmp_name))
      ((new_left, some pattern_stmt), state)
    | AssignTarget.targetIdent name =>
      ((ForLeft.leftTarget (AssignTarget.targetIdent name), none), state)
  | ForLeft.leftUsing => ((ForLeft.leftUsing, none), state)

/-- C3.  The claim states that for a destructuring header LHS the pass
prepends a statement binding the original pattern to the fresh name N.
The source never uses the original pattern when building the prepended
statement: for the declaration header let [x] the prepended statement
is let $zeroSugar0 = $zeroSugar0 and for the assignment-target header
[x] it is the expression statement $zeroSugar0 = $zeroSugar0; the
binding of x is dropped from the output entirely in both cases. -/
theorem c3_pattern_dropped_from_prepended_stmt :
    transform_for_header
        (ForLeft.leftDecl DeclKind.kLet [(DeclKind.kLet, Pat.arr [some (Pat.ident "x")] none, none)])
        initial_state =
      ((ForLeft.leftDecl DeclKind.kLet [(DeclKind.kLet, Pat.ident "$zeroSugar0", none)],
        some (Stmt.varDecl DeclKind.kLet
          [(DeclKind.kLet, Pat.ident "$zeroSugar0", some (Expr.ident "$zeroSugar0"))])),
        { id_counter := 1, continue_targets := [], alloc_log := [0] }) ∧
    transform_for_header
        (ForLeft.leftTarget (AssignTarget.targetPattern (Pat.arr [some (Pat.ident "x")] none)))
        initial_state =
      ((ForLeft.leftTarget (AssignTarget.targetIdent "$zeroSugar0"),
        some (Stmt.exprStmt (Expr.assignName "$zeroSugar0" (Expr.ident "$zeroSugar0")))),
        { id_counter := 1, continue_targets := [], alloc_log := [0] }) :=
  ⟨rfl, rfl⟩

/-!
Variable-declaration normalization (transforms/stmt_var_decl.rs).
Every function that recurses through patterns takes a fuel bound; the
source recursion is structural on the pattern, so any fuel at least
the pattern depth reproduces it exactly.  Arms that are panics or
todo-markers in the source (pattern declarations without initializer,
assignment patterns in declarator position, non-identifier object
rest) return their inputs unchanged and are unreachable for parsed
programs.
-/

/-- The change-tracking enum of stmt_var_decl.rs. -/
inductive Changed where
  | yes
  | no
  deriving DecidableEq, Repr

/-- confirm_var_decl_shape from stmt_var_decl.rs: a block body already
has the target shape when every variable declaration has exactly one
declarator which binds a plain identifier and has an initializer. -/
def confirm_var_decl_shape (body : List Stmt) : Bool :=
  body.all fun stmt =>
    match stmt with
    | Stmt.varDecl _ declarations =>
      if declarations.length != 1 then false
      else declarations.any fun d =>
        if d.2.2.isNone then false
        else
          match d.2.1 with
          | Pat.ident _ => true
          | _ => false
    | _ => true

/-- transform_var_decl_shorthand_with_default from stmt_var_decl.rs:
shorthand property with default, a binding let a = rhs.a followed by
if (a === undefined) a = default. -/
def transform_var_decl_shorthand_with_default (_key : PropKey) (name : String)
    (rhs : Expr) (default_value_expr : Expr) (new_body : List Stmt) : List Stmt :=
  new_body ++
    [create_variable_declaration_kind DeclKind.kLet name
      (some (create_member_expression rhs name)),
     create_if_statement
      (create_binary_expression BinOp.strictEq
        (create_identifier_expression name) (create_identifier_expression "undefined"))
      (create_expression_statement
        (create_assignment_expression (create_identifier_reference name) default_value_expr))
      none]

mutual

/-- transform_var_decl_declr from stmt_var_decl.rs: lowers one
declarator, appending the statements that deconstruct it. -/
def transform_var_decl_declr : Nat → Declr → List Stmt → MapperState →
    Changed × List Stmt × MapperState
  | 0, _, new_body, st => (Changed.no, new_body, st)
  | fuel + 1, (decl_kind, id_kind, init), new_body, st =>
    match id_kind with
    | Pat.ident name =>
      (Changed.no, new_body ++ [create_variable_declaration_kind decl_kind name init], st)
    | Pat.assignPat _ _ =>
      (Changed.no, new_body, st)
    | Pat.obj properties restOpt =>
      match init with
      | none => (Changed.yes, new_body, st)
      | some init =>
        let (rhs, new_body, st) :=
          match init with
          | Expr.ident name => (name, new_body, st)
          | other =>
            let (tmp_var_name, st) := next_ident_name st
            (tmp_var_name,
              new_body ++
                [create_variable_declaration_kind DeclKind.kLet tmp_var_name (some other)],
              st)
        let (final_prop_names, st) := statefulMap (fun (prop : PropKey × Pat × Bool) st =>
          match prop with
          | (PropKey.keyIdent name, _, computed) => ((name, computed), st)
          | (PropKey.keyExpr (Expr.ident name), _, computed) => ((name, computed), st)
          | (PropKey.keyExpr _, _, computed) =>
            let (n, st) := next_ident_name st
            ((n, computed), st)) properties st
        let (new_body, st) :=
          transform_var_decl_obj_props fuel decl_kind rhs
            (properties.zip final_prop_names) new_body st
        let (new_body, st) :=
          match restOpt with
          | none => (new_body, st)
          | some (Pat.ident name) =>
            (new_body ++
              [create_variable_declaration_kind decl_kind name
                (some (create_call_expression (create_identifier_expression "$rest")
                  [create_identifier_expression rhs,
                   create_array_expression (final_prop_names.map (fun nc =>
                     if nc.2 then create_identifier_expression nc.1
                     else create_string_literal nc.1))]))], st)
          | some _ => (new_body, st)
        (Changed.yes, new_body, st)
    | Pat.arr elements restOpt =>
      match init with
      | none => (Changed.yes, new_body, st)
      | some init =>
        let (rhs, new_body, st) :=
          match init with
          | Expr.ident name => (name, new_body, st)
          | other =>
            let (tmp_var_name, st) := next_ident_name st
            (tmp_var_name,
              new_body ++
                [create_variable_declaration_kind DeclKind.kLet tmp_var_name (some other)],
              st)
        let elements_len := elements.length
        let (new_body, st) :=
          transform_var_decl_arr_elems fuel decl_kind rhs elements.enum new_body st
        let (new_body, st) :=
          match restOpt with
          | none => (new_body, st)
          | some (Pat.ident name) =>
            (new_body ++
              [create_variable_declaration_kind decl_kind name
                (some (create_call_expression
                  (create_member_expression (create_identifier_expression rhs) "slice")
                  [create_number_literal_str elements_len]))], st)
          | some (Pat.obj props r) =>
            (new_body ++
              [create_variable_declaration_kind_declr decl_kind
                (create_variable_declarator_pattern (Pat.obj props r)
                  (some (create_identifier_expression rhs)))], st)
          | some _ => (new_body, st)
        (Changed.yes, new_body, st)

/-- The per-property loop of the object-pattern arm of
transform_var_decl_declr (properties zipped with the prepared final
key names). -/
def transform_var_decl_obj_props : Nat → DeclKind → String →
    List ((PropKey × Pat × Bool) × (String × Bool)) → List Stmt → MapperState →
    List Stmt × MapperState
  | 0, _, _, _, new_body, st => (new_body, st)
  | _ + 1, _, _, [], new_body, st => (new_body, st)
  | fuel + 1, decl_kind, rhs, ((key, value, computed), (new_key_name, _)) :: restProps,
      new_body, st =>
    let new_body :=
      if computed then
        match key with
        | PropKey.keyExpr (Expr.ident _) => new_body
        | PropKey.keyExpr e =>
          new_body ++
            [create_variable_declaration_kind DeclKind.kConst new_key_name (some e)]
        | PropKey.keyIdent _ => new_body
      else new_body
    let new_prop_key :=
      if computed then PropKey.keyExpr (create_identifier_expression new_key_name)
      else PropKey.keyIdent new_key_name
    let (new_body, st) :=
      match value with
      | Pat.ident name =>
        let rhsE := create_identifier_expression rhs
        (new_body ++
          [create_variable_declaration_kind decl_kind name
            (some (if computed then create_member_expression_computed_ident rhsE new_key_name
                   else create_member_expression rhsE new_key_name))], st)
      | Pat.assignPat left default_value_expr =>
        match left with
        | Pat.ident bid =>
          (transform_var_decl_shorthand_with_default new_prop_key bid
            (create_identifier_expression rhs) default_value_expr new_body, st)
        | Pat.obj p r =>
          transform_var_decl_obj_pattern_with_default fuel new_prop_key (Pat.obj p r)
            (create_identifier_expression rhs) default_value_expr new_body st
        | Pat.arr e r =>
          transform_var_decl_obj_pattern_with_default fuel new_prop_key (Pat.arr e r)
            (create_identifier_expression rhs) default_value_expr new_body st
        | Pat.assignPat _ _ => (new_body, st)
      | Pat.obj p r =>
        transform_var_decl_obj_pattern_no_default fuel new_prop_key (Pat.obj p r)
          (create_identifier_expression rhs) new_body st
      | Pat.arr e r =>
        transform_var_decl_obj_pattern_no_default fuel new_prop_key (Pat.arr e r)
          (create_identifier_expression rhs) new_body st
    transform_var_decl_obj_props fuel decl_kind rhs restProps new_body st

/-- The per-element loop of the array-pattern arm of
transform_var_decl_declr (elements paired with their indices). -/
def transform_var_decl_arr_elems : Nat → DeclKind → String →
    List (Nat × Option Pat) → List Stmt → MapperState → List Stmt × MapperState
  | 0, _, _, _, new_body, st => (new_body, st)
  | _ + 1, _, _, [], new_body, st => (new_body, st)
  | fuel + 1, decl_kind, rhs, (i, elemOpt) :: restElems, new_body, st =>
    let (new_body, st) :=
      match elemOpt with
      | none => (new_body, st)
      | some (Pat.ident name) =>
        (new_body ++
          [create_variable_declaration_kind decl_kind name
            (some (create_member_expression_computed (create_identifier_expression rhs)
              (create_number_literal_str i)))], st)
      | some (Pat.assignPat left default_value_expr) =>
        transform_var_decl_arr_pattern_with_default fuel i left
          (create_identifier_expression rhs) default_value_expr new_body st
      | some (Pat.obj p r) =>
        transform_var_decl_arr_pattern_no_default fuel i (Pat.obj p r)
          (create_identifier_expression rhs) new_body st
      | some (Pat.arr e r) =>
        transform_var_decl_arr_pattern_no_default fuel i (Pat.arr e r)
          (create_identifier_expression rhs) new_body st
    transform_var_decl_arr_elems fuel decl_kind rhs restElems new_body st

/-- transform_var_decl_obj_pattern_with_default from stmt_var_decl.rs:
binds the keyed member to a fresh temporary, applies the default when
undefined and recurses on the nested pattern. -/
def transform_var_decl_obj_pattern_with_default : Nat → PropKey → Pat → Expr → Expr →
    List Stmt → MapperState → List Stmt × MapperState
  | 0, _, _, _, _, new_body, st => (new_body, st)
  | fuel + 1, key, binding_pattern_kind, rhs, default_value_expr, new_body, st =>
    let (tmp_var_name, st) := next_ident_name st
    let new_body := new_body ++
      [create_variable_declaration_kind DeclKind.kLet tmp_var_name
        (some (match key with
          | PropKey.keyIdent n => create_member_expression rhs n
          | PropKey.keyExpr e => create_member_expression_computed rhs e)),
       create_if_statement
        (create_binary_expression BinOp.strictEq
          (create_identifier_expression tmp_var_name) (create_identifier_expression "undefined"))
        (create_expression_statement
          (create_assignment_expression (create_identifier_reference tmp_var_name)
            default_value_expr))
        none]
    let (_, new_body, st) := transform_var_decl_declr fuel
      (create_variable_declarator_pattern binding_pattern_kind
        (some (create_identifier_expression tmp_var_name))) new_body st
    (new_body, st)

/-- transform_var_decl_obj_pattern_no_default from stmt_var_decl.rs:
binds the keyed member to a fresh temporary and recurses on the nested
pattern. -/
def transform_var_decl_obj_pattern_no_default : Nat → PropKey → Pat → Expr →
    List Stmt → MapperState → List Stmt × MapperState
  | 0, _, _, _, new_body, st => (new_body, st)
  | fuel + 1, key, binding_pattern_kind, rhs, new_body, st =>
    let (tmp_var_name, st) := next_ident_name st
    let new_body := new_body ++
      [create_variable_declaration_kind DeclKind.kLet tmp_var_name
        (some (match key with
          | PropKey.keyIdent n => create_member_expression rhs n
          | PropKey.keyExpr e => create_member_expression_computed rhs e))]
    let (_, new_body, st) := transform_var_decl_declr fuel
      (create_variable_declarator_pattern binding_pattern_kind
        (some (create_identifier_expression tmp_var_name))) new_body st
    (new_body, st)

/-- transform_var_decl_arr_pattern_with_default from stmt_var_decl.rs:
binds the indexed element to a fresh temporary, applies the default
when undefined and recurses on the nested pattern. -/
def transform_var_decl_arr_pattern_with_default : Nat → Nat → Pat → Expr → Expr →
    List Stmt → MapperState → List Stmt × MapperState
  | 0, _, _, _, _, new_body, st => (new_body, st)
  | fuel + 1, index, left, rhs, default_value_expr, new_body, st =>
    let (tmp_var_name, st) := next_ident_name st
    let new_body := new_body ++
      [create_variable_declaration_kind DeclKind.kLet tmp_var_name
        (some (create_member_expression_computed rhs (create_number_literal_str index))),
       create_if_statement
        (create_binary_expression BinOp.strictEq
          (create_identifier_expression tmp_var_name) (create_identifier_expression "undefined"))
        (create_expression_statement
          (create_assignment_expression (create_identifier_reference tmp_var_name)
            default_value_expr))
        none]
    let (_, new_body, st) := transform_var_decl_declr fuel
      (create_variable_declarator_pattern left
        (some (create_identifier_expression tmp_var_name))) new_body st
    (new_body, st)

/-- transform_var_decl_arr_pattern_no_default from stmt_var_decl.rs:
binds the indexed element to a fresh temporary and recurses on the
nested pattern. -/
def transform_var_decl_arr_pattern_no_default : Nat → Nat → Pat → Expr →
    List Stmt → MapperState → List Stmt × MapperState
  | 0, _, _, _, new_body, st => (new_body, st)
  | fuel + 1, index, binding_pattern_kind, rhs, new_body, st =>
    let (tmp_var_name, st) := next_ident_name st
    let new_body := new_body ++
      [create_variable_declaration_kind DeclKind.kLet tmp_var_name
        (some (create_member_expression_computed rhs (create_number_literal_str index)))]
    let (_, new_body, st) := transform_var_decl_declr fuel
      (create_variable_declarator_pattern binding_pattern_kind
        (some (create_identifier_expression tmp_var_name))) new_body st
    (new_body, st)

end

/-- transform_var_decl_any_decr from stmt_var_decl.rs: splits a
declaration into one declaration per declarator and lowers each. -/
def transform_var_decl_any_decr (fuel : Nat) (_kind : DeclKind) (declarations : List Declr)
    (new_body : List Stmt) (st : MapperState) : Changed × List Stmt × MapperState :=
  let changed := if declarations.length == 1 then Changed.no else Changed.yes
  declarations.foldl (fun acc decl =>
    let (changed, new_body, st) := acc
    let (c, new_body, st) := transform_var_decl_declr fuel decl new_body st
    (if c == Changed.yes then Changed.yes else changed, new_body, st))
    (changed, new_body, st)

/-- transform_var_decl_statement from stmt_var_decl.rs: when the block
already has the target shape the block is returned with Normal;
otherwise every variable declaration in the body is lowered and the
result is returned with Revisit when anything changed. -/
def transform_var_decl_statement (fuel : Nat) (body : List Stmt) (st : MapperState) :
    MapperAction × Stmt × MapperState :=
  if confirm_var_decl_shape body then (MapperAction.normal, Stmt.block body, st)
  else
    let (revisit, new_body, st) := body.foldl (fun acc stmt =>
      let (revisit, new_body, st) := acc
      match stmt with
      | Stmt.varDecl kind decls =>
        let (c, new_body, st) := transform_var_decl_any_decr fuel kind decls new_body st
        (revisit || (c == Changed.yes), new_body, st)
      | other => (revisit, new_body ++ [other], st)) (false, ([] : List Stmt), st)
    ((if revisit then MapperAction.revisit else MapperAction.normal), Stmt.block new_body, st)

/-- C4.  The claim states that after the pass runs every declarator
has an initializer, a declarator without one receiving undefined.  The
shape check flags a missing initializer as requiring a rewrite, but
the identifier arm of transform_var_decl_declr re-emits the declarator
with its initializer unchanged and reports no change: on the block
holding let x; the pass returns the very same block, with action
Normal, leaving a declarator with no initializer in the output. -/
theorem c4_missing_init_not_given_undefined :
    confirm_var_decl_shape [Stmt.varDecl DeclKind.kLet [(DeclKind.kLet, Pat.ident "x", none)]]
        = false ∧
    transform_var_decl_statement 9
        [Stmt.varDecl DeclKind.kLet [(DeclKind.kLet, Pat.ident "x", none)]] initial_state =
      (MapperAction.normal,
        Stmt.block [Stmt.varDecl DeclKind.kLet [(DeclKind.kLet, Pat.ident "x", none)]],
        initial_state) :=
  ⟨rfl, rfl⟩

/-- C8.  The claim states that an identifier rest after i fixed
elements becomes let b = T.slice(i), and that an object-pattern rest
is lowered against the sliced tail.  The identifier half holds, but
the object-pattern rest is bound to the whole right-hand side T: for
let [a, ...braces-length-b] = arr the emitted declarator initializer
is the identifier arr itself, not arr.slice(1). -/
theorem c8_object_rest_bound_to_whole_rhs :
    transform_var_decl_declr 9
        (DeclKind.kLet, Pat.arr [some (Pat.ident "a")] (some (Pat.ident "b")),
          some (Expr.ident "arr")) [] initial_state =
      (Changed.yes,
        [Stmt.varDecl DeclKind.kLet
          [(DeclKind.kLet, Pat.ident "a",
            some (Expr.memberComputed (Expr.ident "arr") (Expr.num 0)))],
         Stmt.varDecl DeclKind.kLet
          [(DeclKind.kLet, Pat.ident "b",
            some (Expr.call (Expr.member (Expr.ident "arr") "slice") [Expr.num 1]))]],
        initial_state) ∧
    transform_var_decl_declr 9
        (DeclKind.kLet, Pat.arr [some (Pat.ident "a")]
          (some (Pat.obj [(PropKey.keyIdent "length", Pat.ident "b", false)] none)),
          some (Expr.ident "arr")) [] initial_state =
      (Changed.yes,
        [Stmt.varDecl DeclKind.kLet
          [(DeclKind.kLet, Pat.ident "a",
            some (Expr.memberComputed (Expr.ident "arr") (Expr.num 0)))],
         Stmt.varDecl DeclKind.kLet
          [(DeclKind.kLet, Pat.obj [(PropKey.keyIdent "length", Pat.ident "b", false)] none,
            some (Expr.ident "arr"))]],
        initial_state) :=
  ⟨rfl, rfl⟩

/-!
Reference evaluator.  The specification (sections 1 and 8, property 6)
judges the lowered output by executing it under a JS runtime; this
evaluator gives a semantics for the lowered core statement subset
(block, single-identifier declarations, expression statements, if,
while, labeled, break, throw, try/catch, return) with an oracle for
zero-argument calls to free functions, recording the sequence of calls
as the observable effects.  It is a reference semantics, not an
embedding of repository code.
-/

/-- Runtime values of the reference evaluator. -/
inductive Value where
  | undef
  | vnum (n : Nat)
  | vstr (s : String)
  | vbool (b : Bool)
  deriving DecidableEq, Repr

/-- Behaviour of an oracle function: return a value or throw one. -/
inductive FnBeh where
  | retv (v : Value)
  | thrv (v : Value)
  deriving DecidableEq, Repr

/-- The call oracle: maps a function name to its behaviour. -/
abbrev Oracle := String → Option FnBeh

/-- A flat variable environment (the lowered programs evaluated here
use globally unique names, so block scoping is not modelled). -/
abbrev Env := List (String × Value)

/-- Replaces the binding for a key, or appends it. -/
def envSet : Env → String → Value → Env
  | [], k, v => [(k, v)]
  | (k2, v2) :: rest, k, v =>
    if k2 == k then (k, v) :: rest else (k2, v2) :: envSet rest k v

/-- Reads a binding; absent names (including the global undefined)
read as the undefined value. -/
def envGet (env : Env) (k : String) : Value :=
  ((env.find? (fun p => p.1 == k)).map (fun p => p.2)).getD Value.undef

/-- JS truthiness on the modelled values. -/
def truthy : Value → Bool
  | Value.undef => false
  | Value.vbool b => b
  | Value.vnum n => n != 0
  | Value.vstr s => s != ""

/-- Statement completion records. -/
inductive Outcome where
  | onormal
  | oret (v : Value)
  | othrow (v : Value)
  | obreak (label : Option String)
  deriving DecidableEq, Repr

/-- Evaluates an expression: updated environment, emitted effects (the
names of oracle calls in order) and either a value or a thrown value.
Only the forms the lowered programs under evaluation contain are
given semantics; the remaining forms evaluate to undefined. -/
def evalExpr (oracle : Oracle) : Env → Expr → Env × List String × Except Value Value
  | env, Expr.ident n => (env, [], Except.ok (envGet env n))
  | env, Expr.num n => (env, [], Except.ok (Value.vnum n))
  | env, Expr.str s => (env, [], Except.ok (Value.vstr s))
  | env, Expr.boolLit b => (env, [], Except.ok (Value.vbool b))
  | env, Expr.binop op l r =>
    match evalExpr oracle env l with
    | (env, ef1, Except.error v) => (env, ef1, Except.error v)
    | (env, ef1, Except.ok lv) =>
      match evalExpr oracle env r with
      | (env, ef2, Except.error v) => (env, ef1 ++ ef2, Except.error v)
      | (env, ef2, Except.ok rv) =>
        (env, ef1 ++ ef2, Except.ok (match op with
          | BinOp.strictEq => Value.vbool (lv == rv)
          | BinOp.lessEqThan =>
            match lv, rv with
            | Value.vnum a, Value.vnum b => Value.vbool (a ≤ b)
            | _, _ => Value.vbool false))
  | env, Expr.assignName t r =>
    match evalExpr oracle env r with
    | (env, ef, Except.error v) => (env, ef, Except.error v)
    | (env, ef, Except.ok v) => (envSet env t v, ef, Except.ok v)
  | env, Expr.call (Expr.ident f) [] =>
    match oracle f with
    | some (FnBeh.retv v) => (env, [f], Except.ok v)
    | some (FnBeh.thrv v) => (env, [f], Except.error v)
    | none => (env, [f], Except.ok Value.undef)
  | env, _ => (env, [], Except.ok Value.undef)

mutual

/-- Evaluates one statement under a fuel bound (loops and sequencing
consume fuel; any fuel at least the number of statement evaluations
reproduces the unbounded semantics). -/
def evalStmt (oracle : Oracle) : Nat → Env → Stmt → Env × List String × Outcome
  | 0, env, _ => (env, [], Outcome.onormal)
  | fuel + 1, env, stmt =>
    match stmt with
    | Stmt.block body => evalStmts oracle fuel env body
    | Stmt.empty => (env, [], Outcome.onormal)
    | Stmt.debugger => (env, [], Outcome.onormal)
    | Stmt.exprStmt e =>
      match evalExpr oracle env e with
      | (env, ef, Except.ok _) => (env, ef, Outcome.onormal)
      | (env, ef, Except.error v) => (env, ef, Outcome.othrow v)
    | Stmt.varDecl _ [(_, Pat.ident n, some e)] =>
      match evalExpr oracle env e with
      | (env, ef, Except.ok v) => (envSet env n v, ef, Outcome.onormal)
      | (env, ef, Except.error v) => (env, ef, Outcome.othrow v)
    | Stmt.varDecl _ [(_, Pat.ident n, none)] => (envSet env n Value.undef, [], Outcome.onormal)
    | Stmt.varDecl _ _ => (env, [], Outcome.onormal)
    | Stmt.ifStmt t consequent alternate =>
      match evalExpr oracle env t with
      | (env, ef, Except.error v) => (env, ef, Outcome.othrow v)
      | (env, ef, Except.ok v) =>
        if truthy v then
          let (env, ef2, oc) := evalStmt oracle fuel env consequent
          (env, ef ++ ef2, oc)
        else
          match alternate with
          | some a =>
            let (env, ef2, oc) := evalStmt oracle fuel env a
            (env, ef ++ ef2, oc)
          | none => (env, ef, Outcome.onormal)
    | Stmt.labeled l body =>
      let (env, ef, oc) := evalStmt oracle fuel env body
      (env, ef,
        match oc with
        | Outcome.obreak (some l2) => if l2 == l then Outcome.onormal else Outcome.obreak (some l2)
        | oc => oc)
    | Stmt.breakStmt l => (env, [], Outcome.obreak l)
    | Stmt.continueStmt _ => (env, [], Outcome.onormal)
    | Stmt.returnStmt none => (env, [], Outcome.oret Value.undef)
    | Stmt.returnStmt (some e) =>
      match evalExpr oracle env e with
      | (env, ef, Except.ok v) => (env, ef, Outcome.oret v)
      | (env, ef, Except.error v) => (env, ef, Outcome.othrow v)
    | Stmt.throwStmt e =>
      match evalExpr oracle env e with
      | (env, ef, Except.ok v) => (env, ef, Outcome.othrow v)
      | (env, ef, Except.error v) => (env, ef, Outcome.othrow v)
    | Stmt.whileStmt t body =>
      match evalExpr oracle env t with
      | (env, ef, Except.error v) => (env, ef, Outcome.othrow v)
      | (env, ef, Except.ok v) =>
        if truthy v then
          let (env, ef2, oc) := evalStmt oracle fuel env body
          match oc with
          | Outcome.onormal =>
            let (env, ef3, oc2) := evalStmt oracle fuel env (Stmt.whileStmt t body)
            (env, ef ++ ef2 ++ ef3, oc2)
          | Outcome.obreak none => (env, ef ++ ef2, Outcome.onormal)
          | oc => (env, ef ++ ef2, oc)
        else (env, ef, Outcome.onormal)
    | Stmt.tryStmt body handler _finalizer =>
      let (env, ef, oc) := evalStmts oracle fuel env body
      match oc with
      | Outcome.othrow v =>
        match handler with
        | some (param, hbody) =>
          let env :=
            match param with
            | some (Pat.ident p) => envSet env p v
            | _ => env
          let (env, ef2, oc2) := evalStmts oracle fuel env hbody
          (env, ef ++ ef2, oc2)
        | none => (env, ef, Outcome.othrow v)
      | oc => (env, ef, oc)
    | Stmt.doWhileStmt _ _ => (env, [], Outcome.onormal)
    | Stmt.forStmt _ _ _ _ => (env, [], Outcome.onormal)
    | Stmt.switchStmt _ _ => (env, [], Outcome.onormal)

/-- Evaluates a statement list in order, stopping at the first abrupt
completion. -/
def evalStmts (oracle : Oracle) : Nat → Env → List Stmt → Env × List String × Outcome
  | 0, env, _ => (env, [], Outcome.onormal)
  | _ + 1, env, [] => (env, [], Outcome.onormal)
  | fuel + 1, env, s :: rest =>
    let (env, ef, oc) := evalStmt oracle fuel env s
    match oc with
    | Outcome.onormal =>
      let (env, ef2, oc2) := evalStmts oracle fuel env rest
      (env, ef ++ ef2, oc2)
    | oc => (env, ef, oc)

end

/-!
Switch lowering (transforms/stmt_switch.rs).
-/

/-- The interior-mutability cells of update_breaks: the sub-mapper
state (seeded from the root counter), the has_breaks flag and the
generated break label name. -/
structure UpdateBreaksState where
  sub : MapperState
  has_breaks : Bool
  break_label_name : String
  deriving DecidableEq, Repr

/-- The visitor update_breaks registers on its sub-mapper: in the
Before phase an unlabeled break is given the generated label
(allocated from the sub-mapper state on first use); if, while, try and
function-declaration nodes answer Skip (the intended break
boundaries); switch, continue, do-while and the for statements are
panics in the source because earlier passes must have eliminated them,
and are returned unchanged here. -/
def update_breaks_visitor : StmtVisitor UpdateBreaksState := fun stmt before st =>
  if !before then (MapperAction.normal, stmt, st) else
  match stmt with
  | Stmt.breakStmt none =>
    let st :=
      if !st.has_breaks then
        let (n, sub) := next_ident_name st.sub
        { st with sub := sub, break_label_name := n, has_breaks := true }
      else st
    (MapperAction.normal, Stmt.breakStmt (some st.break_label_name), st)
  | Stmt.breakStmt (some l) => (MapperAction.normal, Stmt.breakStmt (some l), st)
  | Stmt.ifStmt t c a => (MapperAction.skip, Stmt.ifStmt t c a, st)
  | Stmt.whileStmt t b => (MapperAction.skip, Stmt.whileStmt t b, st)
  | Stmt.tryStmt b h f => (MapperAction.skip, Stmt.tryStmt b h f, st)
  | other => (MapperAction.normal, other, st)

/-- update_breaks from stmt_switch.rs: runs the sub-mapper over the
switch (via map_switch_statement) with the visitor above, the
sub-mapper counter seeded with the root counter.  The source returns
(has_breaks, switch); the final cell state is returned as well so the
sub-mapper allocation can be observed (the source drops it after
reading has_breaks). -/
def update_breaks (fuel : Nat) (discriminant : Expr)
    (cases : List (Option Expr × List Stmt)) (next_state_index : Nat) :
    Bool × (Expr × List (Option Expr × List Stmt)) × UpdateBreaksState :=
  let st0 : UpdateBreaksState :=
    { sub := { id_counter := next_state_index, continue_targets := [], alloc_log := [] },
      has_breaks := false, break_label_name := "" }
  let ((discriminant, cases), st) :=
    map_switch_statement fuel [update_breaks_visitor] [] discriminant cases st0
  (st.has_breaks, (discriminant, cases), st)

/-- transform_switch_statement from stmt_switch.rs: rewrites unlabeled
breaks, allocates the wrapping label when any break was rewritten
(repeating the sub-mapper allocation on the root state), stores the
discriminant in a fresh const (returned alone for an empty switch),
converts top-level lexical declarations in the case consequents to
assignments while remembering their names, and emits the result
variable, the if-else selection chain (default index as the final
else) and the per-case if statements, wrapped in the label when
needed. -/
def transform_switch_statement (fuel : Nat) (discriminant : Expr)
    (cases : List (Option Expr × List Stmt)) (state : MapperState) :
    MapperAction × Stmt × MapperState :=
  let (needs_label, (discriminant, cases), _ub) :=
    update_breaks fuel discriminant cases state.id_counter
  let (switch_label, state) :=
    if needs_label then next_ident_name state
    else ("", state)
  let (discriminant_var_name, state) := next_ident_name state
  let discriminant_var_decl :=
    create_variable_declaration_const discriminant_var_name (some discriminant)
  if cases.isEmpty then (MapperAction.revisit, discriminant_var_decl, state)
  else
    let (cases, _names_to_predeclare) :=
      cases.foldl (fun (acc : List (Option Expr × List Stmt) × List String) case =>
        let (casesAcc, names) := acc
        let (test, consequent) := case
        let (consequent, names) :=
          consequent.foldl (fun (acc2 : List Stmt × List String) stmt =>
            let (conAcc, names) := acc2
            match stmt with
            | Stmt.varDecl _ [(_, Pat.ident name, init)] =>
              (conAcc ++
                [create_expression_statement
                  (create_assignment_expression (create_identifier_reference name)
                    (init.getD (create_identifier_expression "undefined")))],
                names ++ [name])
            | other => (conAcc ++ [other], names)) ([], names)
        (casesAcc ++ [(test, consequent)], names)) ([], [])
    let tests := cases.map (fun c => c.1)
    let consequents := cases.map (fun c => c.2)
    let (switch_test_outcome_var, state) := next_ident_name state
    let default_index := ((tests.enum.find? (fun p => p.2.isNone)).map (fun p => p.1))
    let tail_default_case := default_index.map (fun di =>
      create_expression_statement
        (create_assignment_expression (create_identifier_reference switch_test_outcome_var)
          (create_number_literal di)))
    let selection_chain := tests.enum.foldr (fun (p : Nat × Option Expr) prev_if =>
      match p.2 with
      | some test =>
        some (create_if_statement
          (create_binary_expression BinOp.strictEq
            (create_identifier_expression switch_test_outcome_var) test)
          (create_expression_statement
            (create_assignment_expression
              (create_identifier_reference switch_test_outcome_var)
              (create_number_literal p.1)))
          prev_if)
      | none => prev_if) tail_default_case
    let new_body :=
      [create_variable_declaration_let switch_test_outcome_var
        (some (create_number_literal tests.length))] ++
      selection_chain.toList ++
      consequents.enum.map (fun (p : Nat × List Stmt) =>
        create_if_statement
          (create_binary_expression BinOp.lessEqThan
            (create_identifier_expression switch_test_outcome_var)
            (create_number_literal p.1))
          (create_block_statement p.2)
          none)
    let new_block := create_block_statement new_body
    if needs_label then
      (MapperAction.revisit, create_labeled_statement switch_label new_block, state)
    else
      (MapperAction.revisit, new_block, state)

/-- The cases of the S3 scenario switch
switch(x) case 1: a(); case 2: b(); break; default: c(). -/
def s3_cases : List (Option Expr × List Stmt) :=
  [(some (Expr.num 1), [Stmt.exprStmt (Expr.call (Expr.ident "a") [])]),
   (some (Expr.num 2), [Stmt.exprStmt (Expr.call (Expr.ident "b") []), Stmt.breakStmt none]),
   (none, [Stmt.exprStmt (Expr.call (Expr.ident "c") [])])]

/-- An oracle under which every called function returns undefined. -/
def s3_oracle : Oracle := fun _ => some (FnBeh.retv Value.undef)

/-- The statement the switch pass actually produces for the S3 switch:
the discriminant x appears nowhere; the selection chain compares the
result variable (initialized to the case count 3) against the case
tests. -/
def s3_lowered : Stmt :=
  Stmt.labeled "$zeroSugar0" (Stmt.block
    [Stmt.varDecl DeclKind.kLet [(DeclKind.kLet, Pat.ident "$zeroSugar2", some (Expr.num 3))],
     Stmt.ifStmt (Expr.binop BinOp.strictEq (Expr.ident "$zeroSugar2") (Expr.num 1))
      (Stmt.exprStmt (Expr.assignName "$zeroSugar2" (Expr.num 0)))
      (some (Stmt.ifStmt (Expr.binop BinOp.strictEq (Expr.ident "$zeroSugar2") (Expr.num 2))
        (Stmt.exprStmt (Expr.assignName "$zeroSugar2" (Expr.num 1)))
        (some (Stmt.exprStmt (Expr.assignName "$zeroSugar2" (Expr.num 2)))))),
     Stmt.ifStmt (Expr.binop BinOp.lessEqThan (Expr.ident "$zeroSugar2") (Expr.num 0))
      (Stmt.block [Stmt.exprStmt (Expr.call (Expr.ident "a") [])]) none,
     Stmt.ifStmt (Expr.binop BinOp.lessEqThan (Expr.ident "$zeroSugar2") (Expr.num 1))
      (Stmt.block [Stmt.exprStmt (Expr.call (Expr.ident "b") []),
                   Stmt.breakStmt (some "$zeroSugar0")]) none,
     Stmt.ifStmt (Expr.binop BinOp.lessEqThan (Expr.ident "$zeroSugar2") (Expr.num 2))
      (Stmt.block [Stmt.exprStmt (Expr.call (Expr.ident "c") [])]) none])

/-- C2.  The claim states the lowered switch stores the discriminant
in a fresh constant and compares it against the case tests, so that
S3 with x = 1 calls a() then b() and with x = 2 calls b() only.  The
pass builds the const declaration for the discriminant but, for a
non-empty switch, never places it in the output, and the selection
chain compares the result variable itself (just initialized to the
case count) against the tests: the lowered S3 never reads x, the
chain always falls through to the default index, and execution calls
c() alone whether x is 1 or 2. -/
theorem c2_switch_selection_never_reads_discriminant :
    transform_switch_statement 20 (Expr.ident "x") s3_cases initial_state =
      (MapperAction.revisit, s3_lowered,
        { id_counter := 3, continue_targets := [], alloc_log := [0, 1, 2] }) ∧
    (evalStmt s3_oracle 30 [("x", Value.vnum 1)] s3_lowered).2 = (["c"], Outcome.onormal) ∧
    (evalStmt s3_oracle 30 [("x", Value.vnum 2)] s3_lowered).2 = (["c"], Outcome.onormal) :=
  ⟨rfl, rfl, rfl⟩

/-- The final sub-mapper cell state of the break rewrite over the S3
switch. -/
def s3_sub_state : UpdateBreaksState :=
  (update_breaks 20 (Expr.ident "x") s3_cases initial_state.id_counter).2.2

/-- The combined fresh-name allocation trace of lowering the S3
switch: the sub-mapper allocation (which happens first, from the
seeded counter) followed by the root-state allocations. -/
def s3_switch_allocation_trace : List Nat :=
  s3_sub_state.sub.alloc_log ++
    (transform_switch_statement 20 (Expr.ident "x") s3_cases initial_state).2.2.alloc_log

/-- C9 counterexample.  Lowering one switch containing an unlabeled
break performs four fresh-name allocations whose suffixes, in
allocation order, are 0 (the sub-mapper label), 0 again (the root
switch label, deliberately repeating the sub-mapper suffix), 1 and 2:
the sequence is not strictly increasing, refuting the claim that no
two allocations, including those of the sub-mapper, produce the same
suffix. -/
theorem c9_counterexample_duplicate_suffix :
    s3_switch_allocation_trace = [0, 0, 1, 2] ∧
      ¬ List.Chain' (fun a b => a < b) s3_switch_allocation_trace := by
  refine ⟨rfl, ?_⟩
  rw [show s3_switch_allocation_trace = [0, 0, 1, 2] from rfl]
  intro h
  rw [List.chain'_cons] at h
  exact Nat.lt_irrefl 0 h.1

/-- Well-formedness of the ghost allocation log of a mapper state: the
suffixes already handed out are strictly increasing and all below the
current counter. -/
def LogWF (s : MapperState) : Prop :=
  List.Chain' (fun a b => a < b) s.alloc_log ∧ ∀ x ∈ s.alloc_log, x < s.id_counter

/-- C9 amended.  Within a single MapperState the numeric suffix is
strictly increasing in allocation order: each next_ident_name call
emits the current counter and preserves the log invariant.  The switch
pass seeds its break-rewriting sub-mapper with the root counter so
that the one label allocation of the sub-mapper yields, by design, the very
name the root allocates next for the switch label: on the S3 switch
the sub-mapper label is $zeroSugar0, the lowered output is wrapped in
the label $zeroSugar0, and the root-state allocations are the strictly
increasing 0, 1, 2 — the only repeated suffix across root and
sub-mapper is that deliberate duplicate. -/
theorem c9_fresh_name_monotonicity_amended (s : MapperState) (h : LogWF s) :
    LogWF (next_ident_name s).2 ∧
    (next_ident_name s).2.alloc_log = s.alloc_log ++ [s.id_counter] ∧
    s3_sub_state.break_label_name = "$zeroSugar0" ∧
    (∃ b, transform_switch_statement 20 (Expr.ident "x") s3_cases initial_state =
      (MapperAction.revisit, Stmt.labeled "$zeroSugar0" b,
        { id_counter := 3, continue_targets := [], alloc_log := [0, 1, 2] })) := by
  refine ⟨⟨?_, ?_⟩, rfl, rfl, ⟨_, rfl⟩⟩
  · show List.Chain' _ (s.alloc_log ++ [s.id_counter])
    rw [List.chain'_append]
    refine ⟨h.1, List.chain'_singleton _, ?_⟩
    intro x hx y hy
    have hxl : x ∈ s.alloc_log := by
      obtain ⟨hne, hx'⟩ := List.mem_getLast?_eq_getLast hx
      exact hx' ▸ List.getLast_mem hne
    have hy' : s.id_counter = y := by simpa using hy
    exact hy' ▸ h.2 x hxl
  · intro x hx
    show x < s.id_counter + 1
    rcases List.mem_append.mp hx with hx | hx
    · exact Nat.lt_trans (h.2 x hx) (Nat.lt_succ_self _)
    · have hxc : x = s.id_counter := by simpa using hx
      omega

/-- C9 amended, witness: the amended theorem applied at the initial
mapper state. -/
theorem c9_fresh_name_monotonicity_amended_witness :
    LogWF initial_state ∧
      (LogWF (next_ident_name initial_state).2 ∧
       (next_ident_name initial_state).2.alloc_log =
          initial_state.alloc_log ++ [initial_state.id_counter] ∧
       s3_sub_state.break_label_name = "$zeroSugar0" ∧
       (∃ b, transform_switch_statement 20 (Expr.ident "x") s3_cases initial_state =
         (MapperAction.revisit, Stmt.labeled "$zeroSugar0" b,
           { id_counter := 3, continue_targets := [], alloc_log := [0, 1, 2] }))) :=
  ⟨⟨List.chain'_nil, by simp [initial_state]⟩,
    c9_fresh_name_monotonicity_amended initial_state
      ⟨List.chain'_nil, by simp [initial_state]⟩⟩

/-!
Finally elimination (transforms/stmt_finally.rs).  The action codes of
the source: THROW_ACTION_ID = 1, RETURN_ACTION_ID = 2, breaks offset
at 3.
-/

mutual

/-- abrupt_escape_analysis_statement from stmt_finally.rs: reports
whether the statement completes abruptly out of the protected block,
collecting into target_labels the labels of outward breaks (the
sentinel for unlabeled ones).  Throws report false (the wrapping catch
handles them); continues, do-while, for-in/of and switch are panics in
the source (already eliminated) and report false here.  The boolean
combinators short-circuit exactly as in the source. -/
def abrupt_escape_analysis_statement : Nat → Stmt → List String → List String →
    Bool × List String
  | 0, _, _, target_labels => (false, target_labels)
  | fuel + 1, stmt, local_labels, target_labels =>
    match stmt with
    | Stmt.returnStmt _ => (true, target_labels)
    | Stmt.throwStmt _ => (false, target_labels)
    | Stmt.breakStmt lbl =>
      let label := lbl.getD "#looped"
      if local_labels.contains label then (false, target_labels)
      else (true, if target_labels.contains label then target_labels else target_labels ++ [label])
    | Stmt.continueStmt _ => (false, target_labels)
    | Stmt.block body =>
      abrupt_escape_analysis_in_block_body fuel body local_labels target_labels
    | Stmt.ifStmt _ consequent alternate =>
      let (r1, target_labels) :=
        abrupt_escape_analysis_statement fuel consequent local_labels target_labels
      if r1 then (true, target_labels)
      else
        match alternate with
        | some alt => abrupt_escape_analysis_statement fuel alt local_labels target_labels
        | none => (false, target_labels)
    | Stmt.whileStmt _ body =>
      abrupt_escape_analysis_statement fuel body (local_labels ++ ["#looped"]) target_labels
    | Stmt.doWhileStmt _ _ => (false, target_labels)
    | Stmt.forStmt _ _ _ body =>
      abrupt_escape_analysis_statement fuel body local_labels target_labels
    | Stmt.tryStmt body handler finalizer =>
      let (rb, target_labels) :=
        abrupt_escape_analysis_in_block_body fuel body local_labels target_labels
      if rb then
        let (rh, target_labels) :=
          match handler with
          | some (_, hbody) =>
            abrupt_escape_analysis_in_block_body fuel hbody local_labels target_labels
          | none => (false, target_labels)
        if rh then (true, target_labels)
        else
          match finalizer with
          | some f => abrupt_escape_analysis_in_block_body fuel f local_labels target_labels
          | none => (false, target_labels)
      else (false, target_labels)
    | Stmt.labeled label body =>
      abrupt_escape_analysis_statement fuel body (local_labels ++ [label]) target_labels
    | Stmt.switchStmt _ _ => (false, target_labels)
    | _ => (false, target_labels)

/-- abrupt_escape_analysis_in_block_body from stmt_finally.rs: folds
the statement analysis over a block body with a short-circuiting
or. -/
def abrupt_escape_analysis_in_block_body : Nat → List Stmt → List String → List String →
    Bool × List String
  | 0, _, _, target_labels => (false, target_labels)
  | _ + 1, [], _, target_labels => (false, target_labels)
  | fuel + 1, stmt :: rest, local_labels, target_labels =>
    let (r, target_labels) :=
      abrupt_escape_analysis_statement fuel stmt local_labels target_labels
    if r then (true, target_labels)
    else abrupt_escape_analysis_in_block_body fuel rest local_labels target_labels

end

mutual

/-- transform_return_breaks_recursively from stmt_finally.rs: rewrites
returns to action-2 records that break to the new try label, rewrites
escaping breaks to action-(3+k) records, and recurses through the
statement shapes that can carry sub-statements, leaving functions and
everything else untouched.  A try with a finalizer or without a
handler is a panic in the source (already eliminated) and is left
unchanged here. -/
def transform_return_breaks_recursively (action_var use_var new_try_label : String)
    (target_labels : List String) : Nat → Stmt → Stmt
  | 0, stmt => stmt
  | fuel + 1, stmt =>
    match stmt with
    | Stmt.returnStmt argument =>
      create_block_statement
        [create_expression_statement
          (create_assignment_expression_name action_var (Expr.num 2)),
         (match argument with
          | some arg =>
            create_expression_statement (create_assignment_expression_name use_var arg)
          | none =>
            create_expression_statement
              (create_assignment_expression_name use_var (create_identifier_expression "undefined"))),
         Stmt.breakStmt (some new_try_label)]
    | Stmt.breakStmt lbl =>
      let label := lbl.getD "#looped"
      match target_labels.indexOf? label with
      | none => Stmt.breakStmt (some label)
      | some index =>
        create_block_statement
          [create_expression_statement
            (create_assignment_expression_name action_var (Expr.num (3 + index))),
           Stmt.breakStmt (some new_try_label)]
    | Stmt.block body =>
      Stmt.block (transform_return_breaks_in_list action_var use_var new_try_label
        target_labels fuel body)
    | Stmt.ifStmt test consequent alternate =>
      Stmt.ifStmt test
        (transform_return_breaks_recursively action_var use_var new_try_label
          target_labels fuel consequent)
        (match alternate with
         | some alt =>
           some (transform_return_breaks_recursively action_var use_var new_try_label
             target_labels fuel alt)
         | none => none)
    | Stmt.whileStmt test body =>
      Stmt.whileStmt test
        (transform_return_breaks_recursively action_var use_var new_try_label
          target_labels fuel body)
    | Stmt.tryStmt body handler finalizer =>
      match finalizer, handler with
      | none, some (catch_param, catch_body) =>
        Stmt.tryStmt
          (transform_return_breaks_in_list action_var use_var new_try_label
            target_labels fuel body)
          (some (catch_param,
            transform_return_breaks_in_list action_var use_var new_try_label
              target_labels fuel catch_body))
          none
      | _, _ => Stmt.tryStmt body handler finalizer
    | Stmt.labeled label body =>
      Stmt.labeled label
        (transform_return_breaks_recursively action_var use_var new_try_label
          target_labels fuel body)
    | other => other

/-- The block-body loop of transform_return_breaks_recursively. -/
def transform_return_breaks_in_list (action_var use_var new_try_label : String)
    (target_labels : List String) : Nat → List Stmt → List Stmt
  | 0, body => body
  | _ + 1, [] => []
  | fuel + 1, stmt :: rest =>
    transform_return_breaks_recursively action_var use_var new_try_label
        target_labels fuel stmt ::
      transform_return_breaks_in_list action_var use_var new_try_label target_labels fuel rest

end

/-- transform_finally_wrap from stmt_finally.rs: assembles the final
block: the action and value declarations, the labeled wrapped try, the
original finally body, the throw dispatch on action 1, the return
dispatch on action 2 and one break dispatch per escape target. -/
def transform_finally_wrap (outer_try : Stmt) (finalizer_body : List Stmt)
    (action_var use_var new_try_label : String) (target_labels : List String) :
    MapperAction × Stmt :=
  let new_body :=
    [create_variable_declaration_let action_var (some (create_number_literal 0)),
     create_variable_declaration_let use_var none,
     Stmt.labeled new_try_label outer_try,
     Stmt.block finalizer_body,
     create_if_statement
      (create_binary_expression BinOp.strictEq
        (create_identifier_expression action_var) (create_number_literal 1))
      (create_throw_statement (create_identifier_expression use_var))
      none,
     create_if_statement
      (create_binary_expression BinOp.strictEq
        (create_identifier_expression action_var) (create_number_literal 2))
      (create_return_statement (some (create_identifier_expression use_var)))
      none] ++
    target_labels.enum.map (fun (p : Nat × String) =>
      create_if_statement
        (create_binary_expression BinOp.strictEq
          (create_identifier_expression action_var) (create_number_literal (3 + p.1)))
        (create_break_statement
          (if p.2 == "#looped" then none else some p.2))
        none)
  (MapperAction.revisit, create_block_statement new_body)

/-- transform_try_finally from stmt_finally.rs (Case A, no catch):
wraps the protected block with a fresh catch whose body records the
action code 2 and the caught value, then runs the finally body and the
dispatch tail. -/
def transform_try_finally (fuel : Nat) (block_body : List Stmt)
    (finalizer_body : List Stmt) (state : MapperState) :
    MapperAction × Stmt × MapperState :=
  let (has_abrupt, target_labels) :=
    abrupt_escape_analysis_in_block_body fuel block_body [] []
  let (action_var, state) := next_ident_name state
  let (use_var, state) := next_ident_name state
  let (new_try_label, state) := next_ident_name state
  let new_try_body :=
    if has_abrupt then
      transform_return_breaks_in_list action_var use_var new_try_label target_labels
        fuel block_body
    else block_body
  let new_try := Stmt.tryStmt new_try_body
    (some (create_catch_clause (some (create_binding_pattern "e"))
      [create_expression_statement
        (create_assignment_expression_name action_var (create_number_literal 2)),
       create_expression_statement
        (create_assignment_expression_name use_var (create_identifier_expression "e"))]))
    none
  let (action, stmt) :=
    transform_finally_wrap new_try finalizer_body action_var use_var new_try_label target_labels
  (action, stmt, state)

/-- transform_try_catch_finally from stmt_finally.rs (Case B): keeps
the user catch, wrapping its body in an inner try whose fresh catch
records the action code 2 and the caught value, then runs the finally
body and the dispatch tail. -/
def transform_try_catch_finally (fuel : Nat) (block_body : List Stmt)
    (catch_param : Option Pat) (catch_body : List Stmt)
    (finalizer_body : List Stmt) (state : MapperState) :
    MapperAction × Stmt × MapperState :=
  let (has_abrupt, target_labels) :=
    abrupt_escape_analysis_in_block_body fuel block_body [] []
  let (action_var, state) := next_ident_name state
  let (use_var, state) := next_ident_name state
  let (new_try_label, state) := next_ident_name state
  let new_try_body :=
    if has_abrupt then
      transform_return_breaks_in_list action_var use_var new_try_label target_labels
        fuel block_body
    else block_body
  let (catch_var, state) := next_ident_name state
  let inner_try := Stmt.tryStmt catch_body
    (some (some (Pat.ident catch_var),
      [create_expression_statement
        (create_assignment_expression_name action_var (create_number_literal 2)),
       create_expression_statement
        (create_assignment_expression_name use_var (create_identifier_expression catch_var))]))
    none
  let outer_try := Stmt.tryStmt new_try_body
    (some (catch_param, [inner_try]))
    none
  let (action, stmt) :=
    transform_finally_wrap outer_try finalizer_body action_var use_var new_try_label target_labels
  (action, stmt, state)

/-- transform_finally_statement from stmt_finally.rs: dispatches on
the presence of the finalizer and the handler. -/
def transform_finally_statement (fuel : Nat) (body : List Stmt)
    (handler : Option (Option Pat × List Stmt)) (finalizer : Option (List Stmt))
    (state : MapperState) : MapperAction × Stmt × MapperState :=
  match finalizer with
  | none => (MapperAction.normal, Stmt.tryStmt body handler none, state)
  | some finalizer_body =>
    match handler with
    | some (catch_param, catch_body) =>
      transform_try_catch_finally fuel body catch_param catch_body finalizer_body state
    | none => transform_try_finally fuel body finalizer_body state

/-- The S4 scenario protected block: try { return f() }. -/
def s4_body : List Stmt := [Stmt.returnStmt (some (Expr.call (Expr.ident "f") []))]

/-- The S4 finalizer body: { g() }. -/
def s4_finalizer : List Stmt := [Stmt.exprStmt (Expr.call (Expr.ident "g") [])]

/-- The oracle of the throwing S4 run: f throws E, everything else
returns undefined. -/
def s4_oracle : Oracle := fun n =>
  if n == "f" then some (FnBeh.thrv (Value.vstr "E")) else some (FnBeh.retv Value.undef)

/-- The statement the finally pass actually produces for S4: note the
wrapping catch body assigns 2 (the return action code) to the action
variable, not 1 (the throw action code). -/
def s4_lowered : Stmt :=
  Stmt.block
    [Stmt.varDecl DeclKind.kLet [(DeclKind.kLet, Pat.ident "$zeroSugar0", some (Expr.num 0))],
     Stmt.varDecl DeclKind.kLet [(DeclKind.kLet, Pat.ident "$zeroSugar1", none)],
     Stmt.labeled "$zeroSugar2" (Stmt.tryStmt
       [Stmt.block
         [Stmt.exprStmt (Expr.assignName "$zeroSugar0" (Expr.num 2)),
          Stmt.exprStmt (Expr.assignName "$zeroSugar1" (Expr.call (Expr.ident "f") [])),
          Stmt.breakStmt (some "$zeroSugar2")]]
       (some (some (Pat.ident "e"),
         [Stmt.exprStmt (Expr.assignName "$zeroSugar0" (Expr.num 2)),
          Stmt.exprStmt (Expr.assignName "$zeroSugar1" (Expr.ident "e"))]))
       none),
     Stmt.block [Stmt.exprStmt (Expr.call (Expr.ident "g") [])],
     Stmt.ifStmt (Expr.binop BinOp.strictEq (Expr.ident "$zeroSugar0") (Expr.num 1))
       (Stmt.throwStmt (Expr.ident "$zeroSugar1")) none,
     Stmt.ifStmt (Expr.binop BinOp.strictEq (Expr.ident "$zeroSugar0") (Expr.num 2))
       (Stmt.returnStmt (some (Expr.ident "$zeroSugar1"))) none]

/-- C1.  The claim states the wrapping catch of a lowered try/finally
records action code 1 (throw) so that the tail dispatch re-throws, and
that for S4 with f() throwing E the value E propagates out of the
function.  Both catch builders hard-code the literal 2 — the return
action code — so after g() runs the tail dispatch executes the
return branch: lowering S4 produces the tree below, running it with f
throwing E invokes f then g and completes with return E rather than
throw E, and the Case B inner catch records the same code 2. -/
theorem c1_wrapping_catch_records_return_code :
    transform_finally_statement 20 s4_body none (some s4_finalizer) initial_state =
      (MapperAction.revisit, s4_lowered,
        { id_counter := 3, continue_targets := [], alloc_log := [0, 1, 2] }) ∧
    (evalStmt s4_oracle 30 [] s4_lowered).2 = (["f", "g"], Outcome.oret (Value.vstr "E")) ∧
    transform_finally_statement 20 [] (some (some (Pat.ident "e"), [])) (some [])
        initial_state =
      (MapperAction.revisit,
        Stmt.block
          [Stmt.varDecl DeclKind.kLet
            [(DeclKind.kLet, Pat.ident "$zeroSugar0", some (Expr.num 0))],
           Stmt.varDecl DeclKind.kLet [(DeclKind.kLet, Pat.ident "$zeroSugar1", none)],
           Stmt.labeled "$zeroSugar2" (Stmt.tryStmt []
             (some (some (Pat.ident "e"),
               [Stmt.tryStmt []
                 (some (some (Pat.ident "$zeroSugar3"),
                   [Stmt.exprStmt (Expr.assignName "$zeroSugar0" (Expr.num 2)),
                    Stmt.exprStmt (Expr.assignName "$zeroSugar1" (Expr.ident "$zeroSugar3"))]))
                 none]))
             none),
           Stmt.block [],
           Stmt.ifStmt (Expr.binop BinOp.strictEq (Expr.ident "$zeroSugar0") (Expr.num 1))
             (Stmt.throwStmt (Expr.ident "$zeroSugar1")) none,
           Stmt.ifStmt (Expr.binop BinOp.strictEq (Expr.ident "$zeroSugar0") (Expr.num 2))
             (Stmt.returnStmt (some (Expr.ident "$zeroSugar1"))) none],
        { id_counter := 4, continue_targets := [], alloc_log := [0, 1, 2, 3] }) :=
  ⟨rfl, rfl, rfl⟩

/-!
Public entry point (lib.rs).  The parser and code generator are the
external collaborators of the specification; they are passed in as
functions (codegen and the debug dump) and the parser output is the
ParseReturn record.  The builder methods lib.rs takes from its ast
module (a module not among the sources provided) are the same thin
constructors as transforms/builder.rs and are mapped to those; the
declaration kind of the do-while sentinel is modelled from the spec:
section 4.4 shows let $s = true.
-/

/-- The result record of transform_code (wasm attributes dropped). -/
structure TransformResult where
  transformed_ast : String
  transformed_code : String
  had_error : Bool
  error_message : Option String
  deriving Repr

/-- The parser output consumed by transform_code: the program body and
the diagnostics list. -/
structure ParseReturn where
  program : List Stmt
  errors : List String

/-- LoopTransformer::transform_statement from lib.rs: lowers a
C-style for to a while (wrapped with its init statement when present),
rejecting a using declaration in the init through the error channel,
and lowers do-while to the sentinel form; every other statement is
returned unchanged. -/
def lib_transform_statement : Stmt → Except String Stmt
  | Stmt.forStmt init test update body =>
    let test := test.getD (create_bool true)
    let new_body := [body] ++
      (match update with
       | some update => [create_expression_statement update]
       | none => [])
    let while_block := create_block_statement new_body
    let while_stmt := create_while_statement test while_block
    match init with
    | some (ForInit.initExpr e) =>
      Except.ok (create_block_statement [create_expression_statement e, while_stmt])
    | some ForInit.initUsing =>
      Except.error "The `using` syntax is not supported by this tool"
    | some (ForInit.initDecl kind decls) =>
      Except.ok (create_block_statement [Stmt.varDecl kind decls, while_stmt])
    | none => Except.ok while_stmt
  | Stmt.doWhileStmt body test =>
    Except.ok (create_block_statement
      [create_variable_declaration_let "test" (some (create_bool true)),
       create_while_statement (create_identifier_expression "test")
        (create_block_statement
          [body,
           create_expression_statement (create_assignment_expression_name "test" test)])])
  | other => Except.ok other

/-- The statement loop of transform_code: transforms each top-level
statement, propagating the first error. -/
def transform_program_body : List Stmt → Except String (List Stmt)
  | [] => Except.ok []
  | stmt :: rest =>
    match lib_transform_statement stmt with
    | Except.error e => Except.error e
    | Except.ok s =>
      match transform_program_body rest with
      | Except.error e => Except.error e
      | Except.ok ss => Except.ok (s :: ss)

/-- transform_code from lib.rs: an empty diagnostics set runs the
transformer over the body (propagating transformer errors through the
Result channel) and serializes; otherwise the joined diagnostics are
returned in a TransformResult with had_error set and empty output. -/
def transform_code (codegen : List Stmt → String) (dump : List Stmt → String)
    (pr : ParseReturn) : Except String TransformResult :=
  if pr.errors.isEmpty then
    match transform_program_body pr.program with
    | Except.error e => Except.error e
    | Except.ok new_body =>
      Except.ok
        { transformed_ast := dump new_body, transformed_code := codegen new_body,
          had_error := false, error_message := none }
  else
    Except.ok
      { transformed_ast := "", transformed_code := "",
        had_error := true, error_message := some (String.intercalate "\n" pr.errors) }

/-- The parse output of a program whose only statement is
for (using x;;) { }. -/
def using_for_input : ParseReturn :=
  { program := [Stmt.forStmt (some ForInit.initUsing) none none (Stmt.block [])],
    errors := [] }

/-- C10 counterexample.  On the unsupported using-in-for-init input,
transform_code returns Err through the Result channel: there is no Ok
TransformResult at all, so no result carrying had_error = true and an
empty transformed_code, contradicting the claim for this failing
input. -/
theorem c10_counterexample_using_yields_err :
    transform_code (fun _ => "") (fun _ => "") using_for_input =
      Except.error "The `using` syntax is not supported by this tool" ∧
    ¬ ∃ r : TransformResult,
        transform_code (fun _ => "") (fun _ => "") using_for_input = Except.ok r ∧
        r.had_error = true ∧ r.transformed_code = "" := by
  refine ⟨rfl, ?_⟩
  rintro ⟨r, hr, -, -⟩
  have h : transform_code (fun _ => "") (fun _ => "") using_for_input =
      Except.error "The `using` syntax is not supported by this tool" := rfl
  rw [h] at hr
  exact Except.noConfusion hr

/-- C10 amended.  A parse failure (non-empty diagnostics) yields an Ok
TransformResult with had_error = true, empty transformed_code and the
joined diagnostics as the message, for any codegen and dump; an
unsupported using declaration in a for-init instead makes
transform_code return an Err through the Result channel (the
TS-only declarations reached by the mapper panic in mapper.rs). -/
theorem c10_error_paths_amended (pr : ParseReturn) (h : pr.errors ≠ [])
    (codegen dump : List Stmt → String) :
    transform_code codegen dump pr =
      Except.ok
        { transformed_ast := "", transformed_code := "",
          had_error := true, error_message := some (String.intercalate "\n" pr.errors) } ∧
    transform_code codegen dump using_for_input =
      Except.error "The `using` syntax is not supported by this tool" := by
  constructor
  · have hne : pr.errors.isEmpty = false := by
      cases he : pr.errors with
      | nil => exact absurd he h
      | cons a l => rfl
    unfold transform_code
    rw [hne]
    rfl
  · rfl

/-- C10 amended, witness: the amended theorem applied to a parse
return carrying one diagnostic. -/
theorem c10_error_paths_amended_witness :
    ((["boom"] : List String) ≠ []) ∧
    (transform_code (fun _ => "") (fun _ => "") { program := [], errors := ["boom"] } =
      Except.ok
        { transformed_ast := "", transformed_code := "",
          had_error := true, error_message := some (String.intercalate "\n" ["boom"]) } ∧
     transform_code (fun _ => "") (fun _ => "") using_for_input =
      Except.error "The `using` syntax is not supported by this tool") :=
  ⟨List.cons_ne_nil _ _,
    c10_error_paths_amended { program := [], errors := ["boom"] } (List.cons_ne_nil _ _)
      (fun _ => "") (fun _ => "")⟩

end ZeroSugar
